import Mathlib

/-!
Shallow embedding of the ASL recognition backend (`src/backend/main.py`) and
proofs about it.

Modelling conventions:
* Python floats are modelled as exact rationals (`ℚ`): the idealized real
  semantics of the numeric code. `math.pi` is the double-precision constant.
* `np.sqrt` / `np.degrees (np.arccos _)` are transcendental; they are taken as
  parameters (structure `NumpyReal`).  Wherever the source merely *compares*
  two norms, or a norm against a nonnegative constant, the embedding compares
  the squares instead, which is exact (`Real.sqrt` is strictly monotone on
  nonnegative arguments); each such spot carries a comment.
* A JSON landmark (`lm.get('x')` on a dict) is an `Option ℚ` per coordinate: a
  missing key yields `None`, and arithmetic on `None` raises `TypeError`.
  Fallible code therefore returns `Except`.
* Mutation of `self` is explicit state passing; `time.time()` is an explicit
  timestamp argument.
-/

set_option maxHeartbeats 1600000
set_option maxRecDepth 16000

namespace ASL

/-- `Config.CONFIDENCE_THRESHOLD = 0.75`. -/
def CONFIDENCE_THRESHOLD : ℚ := 3/4

/-- `Config.BUFFER_SIZE = 8`. -/
def BUFFER_SIZE : ℕ := 8

/-- `Config.MAJORITY_THRESHOLD = 0.65`.  (`8 * 0.65` is `5.2` in ℚ; the binary
double `8 * 0.65 = 5.200000000000000177...` orders integer counts the same
way, so the model is exact for the comparison the code makes.) -/
def MAJORITY_THRESHOLD : ℚ := 13/20

/-- `Config.WORD_COOLDOWN = 0.5`. -/
def WORD_COOLDOWN : ℚ := 1/2

/-- `Config.FILTER_MIN_CUTOFF = 1.5`. -/
def FILTER_MIN_CUTOFF : ℚ := 3/2

/-- `Config.FILTER_BETA = 8.0`. -/
def FILTER_BETA : ℚ := 8

/-- The double-precision value of `math.pi`. -/
def mathPi : ℚ := 884279719003555 / 281474976710656

/-- `OneEuroFilter`: the per-scalar-channel adaptive low-pass filter.
`x_prev` is `Option ℚ` because the constructor receives `lm.get('x')`, which
is `None` when the key is absent (Python stores it untouched). -/
structure OneEuroFilter where
  t_prev : ℚ
  x_prev : Option ℚ
  dx_prev : ℚ
  min_cutoff : ℚ
  beta : ℚ
  d_cutoff : ℚ
deriving DecidableEq, Repr

/-- `OneEuroFilter.smoothing_factor`. -/
def smoothing_factor (t_e cutoff : ℚ) : ℚ :=
  let r := 2 * mathPi * cutoff * t_e
  r / (r + 1)

/-- `OneEuroFilter.exponential_smoothing`. -/
def exponential_smoothing (a x x_prev : ℚ) : ℚ :=
  a * x + (1 - a) * x_prev

/-- `OneEuroFilter.__call__`.  If `t_e <= 0` the raw `x` is returned (even if
it is `None`) and no state field is assigned.  Otherwise the arithmetic
`(x - x_prev) / t_e` needs both values to be numbers; with a `None` on either
side Python raises `TypeError` before any state assignment, modelled as
`.error ()`. -/
def OneEuroFilter.call (f : OneEuroFilter) (t : ℚ) (x : Option ℚ) :
    Except Unit (Option ℚ × OneEuroFilter) :=
  let t_e := t - f.t_prev
  if t_e ≤ 0 then
    .ok (x, f)
  else
    match x, f.x_prev with
    | some xv, some xp =>
      let a_d := smoothing_factor t_e f.d_cutoff
      let dx := (xv - xp) / t_e
      let dx_hat := exponential_smoothing a_d dx f.dx_prev
      let cutoff := f.min_cutoff + f.beta * |dx_hat|
      let a := smoothing_factor t_e cutoff
      let x_hat := exponential_smoothing a xv xp
      .ok (some x_hat, { f with x_prev := some x_hat, dx_prev := dx_hat, t_prev := t })
    | _, _ => .error ()

/-- One raw landmark as delivered in the JSON payload: a dict whose keys
`x`/`y`/`z` may be absent (`none`). -/
structure Lm where
  x : Option ℚ := none
  y : Option ℚ := none
  z : Option ℚ := none
deriving DecidableEq, Repr

/-- One row of the `smoothed` list: the three per-axis filter outputs.  A
component is `none` when the filter returned a raw missing value. -/
abbrev Row : Type := Option ℚ × Option ℚ × Option ℚ

/-- `HandFeatureExtractor.filters`: the per-channel filter dict, in insertion
order (Python dicts preserve it). -/
abbrev FilterBank : Type := List (ℕ × OneEuroFilter)

/-- Dict write `self.filters[idx] = f` when the key may already exist. -/
def bankSet (bank : FilterBank) (idx : ℕ) (f : OneEuroFilter) : FilterBank :=
  if (bank.lookup idx).isSome then
    bank.map (fun p => if p.1 = idx then (idx, f) else p)
  else
    bank ++ [(idx, f)]

/-- `HandFeatureExtractor._get_filter`: get or lazily create the channel
filter (creation is a dict write that persists even if the later call
raises). -/
def get_filter (bank : FilterBank) (idx : ℕ) (t : ℚ) (val : Option ℚ) :
    OneEuroFilter × FilterBank :=
  match bank.lookup idx with
  | some f => (f, bank)
  | none =>
    let f : OneEuroFilter :=
      { t_prev := t, x_prev := val, dx_prev := 0,
        min_cutoff := FILTER_MIN_CUTOFF, beta := FILTER_BETA, d_cutoff := 1 }
    (f, bank ++ [(idx, f)])

/-- `self._get_filter(idx, t, v)(t, v)` for one scalar channel: on success the
updated filter replaces the dict entry; on a raised `TypeError` the entry
keeps its pre-call state (the assignments in `__call__` come last). -/
def smoothChannel (bank : FilterBank) (idx : ℕ) (t : ℚ) (v : Option ℚ) :
    Except FilterBank (Option ℚ × FilterBank) :=
  let fb := get_filter bank idx t v
  match fb.1.call t v with
  | .ok (out, f₂) => .ok (out, bankSet fb.2 idx f₂)
  | .error _ => .error fb.2

/-- The body of the `try` loop of `smooth_landmarks` for landmark `i`: filter
`x`, `y`, `z` in that order (`z` defaults to `0` via `lm.get('z', 0)`).  An
exception aborts mid-landmark, keeping the filters already touched. -/
def smoothLandmark (bank : FilterBank) (i : ℕ) (t : ℚ) (lm : Lm) :
    Except FilterBank (Row × FilterBank) :=
  match smoothChannel bank (i*3 + 0) t lm.x with
  | .error b => .error b
  | .ok (sx, b₁) =>
    match smoothChannel b₁ (i*3 + 1) t lm.y with
    | .error b => .error b
    | .ok (sy, b₂) =>
      match smoothChannel b₂ (i*3 + 2) t (some (lm.z.getD 0)) with
      | .error b => .error b
      | .ok (sz, b₃) => .ok ((sx, sy, sz), b₃)

/-- The `try` loop of `smooth_landmarks` over all landmarks.  On an exception
the rows appended *before* the failing landmark are kept (the code does not
clear `smoothed` before falling back) and are carried in the `.error` payload
together with the mutated filter dict. -/
def smoothTry (t : ℚ) : List Lm → ℕ → FilterBank →
    Except (List Row × FilterBank) (List Row × FilterBank)
  | [], _, bank => .ok ([], bank)
  | lm :: rest, i, bank =>
    match smoothLandmark bank i t lm with
    | .error b => .error ([], b)
    | .ok (row, b₁) =>
      match smoothTry t rest (i+1) b₁ with
      | .ok (rows, b₂) => .ok (row :: rows, b₂)
      | .error (rows, b₂) => .error (row :: rows, b₂)

/-- One row of the fallback loop: `lm.get('x', 0)` etc., all defaulting to
`0`. -/
def rawRow (lm : Lm) : Row :=
  (some (lm.x.getD 0), some (lm.y.getD 0), some (lm.z.getD 0))

/-- `HandFeatureExtractor.smooth_landmarks` for dict-shaped landmarks (the
JSON payload format): apply the filters; if any step raises, append one raw
row per landmark to the *partially filled* `smoothed` list and return that. -/
def smooth_landmarks (bank : FilterBank) (t : ℚ) (landmarks : List Lm) :
    List Row × FilterBank :=
  match smoothTry t landmarks 0 bank with
  | .ok (rows, b) => (rows, b)
  | .error (rows, b) => (rows ++ landmarks.map rawRow, b)

/-- A 3D point / vector (one row of the coordinate array). -/
structure Vec3 where
  x : ℚ
  y : ℚ
  z : ℚ
deriving DecidableEq, Repr

/-- `VectorUtils.get_vector`: `v2 - v1`. -/
def get_vector (v1 v2 : Vec3) : Vec3 :=
  ⟨v2.x - v1.x, v2.y - v1.y, v2.z - v1.z⟩

/-- `np.dot`. -/
def vdot (a b : Vec3) : ℚ :=
  a.x * b.x + a.y * b.y + a.z * b.z

/-- `np.cross`. -/
def vcross (a b : Vec3) : Vec3 :=
  ⟨a.y * b.z - a.z * b.y, a.z * b.x - a.x * b.z, a.x * b.y - a.y * b.x⟩

/-- The squared Euclidean norm, `np.linalg.norm(v) ** 2`, expressible exactly
in ℚ. -/
def sqNorm (v : Vec3) : ℚ := vdot v v

/-- The transcendental primitives supplied by numpy, taken as parameters of
the embedding: `sqrt q` stands for `np.sqrt q` and `acosDeg c` for
`np.degrees(np.arccos c)`.  Every theorem below holds for every
interpretation of these fields; none of the verified properties depends on
their values. -/
structure NumpyReal where
  sqrt : ℚ → ℚ
  acosDeg : ℚ → ℚ

/-- `np.linalg.norm`. -/
def vnorm (g : NumpyReal) (v : Vec3) : ℚ := g.sqrt (sqNorm v)

/-- `VectorUtils.normalize_vector`: the zero-norm vector is returned
unchanged. -/
def normalize_vector (g : NumpyReal) (v : Vec3) : Vec3 :=
  let n := vnorm g v
  if n = 0 then v else ⟨v.x / n, v.y / n, v.z / n⟩

/-- `np.clip`. -/
def clip (x lo hi : ℚ) : ℚ := max lo (min x hi)

/-- `VectorUtils.calculate_angle`: angle between two vectors in degrees via
the clamped dot product of the unit vectors. -/
def calculate_angle (g : NumpyReal) (v1 v2 : Vec3) : ℚ :=
  g.acosDeg (clip (vdot (normalize_vector g v1) (normalize_vector g v2)) (-1) 1)

/-- `Finger`. -/
inductive Finger where
  | THUMB
  | INDEX
  | MIDDLE
  | RING
  | PINKY
deriving DecidableEq, Repr

/-- `FingerState`. -/
inductive FingerState where
  | FOLDED
  | CURLED
  | EXTENDED
deriving DecidableEq, Repr

/-- `Orientation`. -/
inductive Orientation where
  | UP
  | DOWN
  | LEFT
  | RIGHT
  | FORWARD
  | BACKWARD
deriving DecidableEq, Repr

/-- `HandState`: the processed per-frame snapshot.  The two dicts are total
functions (the extractor always fills all five fingers). -/
structure HandState where
  fingers : Finger → FingerState
  finger_angles : Finger → ℚ
  palm_orientation : Orientation
  thumb_position : String
  raw_landmarks : List Vec3
  timestamp : ℚ

/-- The inner `analyze_finger` of `HandFeatureExtractor.process`.  The
wrist-distance comparison `np.linalg.norm(tip - wrist) <
np.linalg.norm(mcp - wrist)` is made exactly on the squared norms (`sqrt` is
strictly monotone on nonnegative reals). -/
def analyze_finger (g : NumpyReal) (wrist mcp pip dip tip : Vec3) :
    FingerState × ℚ :=
  let v_mcp_pip := get_vector mcp pip
  let v_pip_dip := get_vector pip dip
  let v_dip_tip := get_vector dip tip
  let angle_pip := calculate_angle g v_mcp_pip v_pip_dip
  let angle_dip := calculate_angle g v_pip_dip v_dip_tip
  let total_bend := angle_pip + angle_dip
  let d_lt := sqNorm (get_vector wrist tip) < sqNorm (get_vector wrist mcp)
  let state :=
    if total_bend > 160 then FingerState.FOLDED
    else if total_bend > 90 ∨ d_lt then FingerState.CURLED
    else FingerState.EXTENDED
  (state, total_bend)

/-- Step 5 of `HandFeatureExtractor.process` (lines 1030–1038): map the palm
normal to an `Orientation` by dominant absolute axis, z checked first, then
y, then x by elimination. -/
def classifyOrientation (n : Vec3) : Orientation :=
  let abs_x := |n.x|
  let abs_y := |n.y|
  let abs_z := |n.z|
  if abs_z > abs_x ∧ abs_z > abs_y then
    (if n.z < 0 then Orientation.FORWARD else Orientation.BACKWARD)
  else if abs_y > abs_x then
    (if n.y < 0 then Orientation.UP else Orientation.DOWN)
  else
    (if n.x < 0 then Orientation.LEFT else Orientation.RIGHT)

/-- Convert one smoothed row into a coordinate triple.  In Python a row
component that is `None` raises `TypeError` at its first arithmetic use;
theorems about the non-rejecting path of `process` are stated for frames
whose rows are fully numeric, where the `getD 0` defaults never fire. -/
def rowVec (r : Row) : Vec3 := ⟨r.1.getD 0, r.2.1.getD 0, r.2.2.getD 0⟩

/-- `HandFeatureExtractor.process`: reject frames with fewer than 21 points
(without touching the filters), otherwise smooth and build the `HandState`.
The outer `try` around `smooth_landmarks` never fires for dict-shaped
landmarks (the fallback loop in `smooth_landmarks` is total for dicts).
Both `time.time()` readings are the frame timestamp `t`. -/
def process (g : NumpyReal) (filters : FilterBank) (t : ℚ)
    (raw_landmarks : List Lm) : Option HandState × FilterBank :=
  if raw_landmarks.length < 21 then (none, filters)
  else
    let rb := smooth_landmarks filters t raw_landmarks
    let coords : ℕ → Vec3 := fun i => ((rb.1.get? i).map rowVec).getD ⟨0, 0, 0⟩
    let wrist := coords 0
    let thumb_mcp := coords 2
    let thumb_tip := coords 4
    let index_mcp := coords 5
    let pinky_mcp := coords 17
    let idxF := analyze_finger g wrist (coords 5) (coords 6) (coords 7) (coords 8)
    let midF := analyze_finger g wrist (coords 9) (coords 10) (coords 11) (coords 12)
    let rngF := analyze_finger g wrist (coords 13) (coords 14) (coords 15) (coords 16)
    let pnkF := analyze_finger g wrist (coords 17) (coords 18) (coords 19) (coords 20)
    let v_thumb_tip_mcp := get_vector thumb_mcp thumb_tip
    let v_index_mcp_wrist := get_vector wrist index_mcp
    let thumb₀ :=
      if calculate_angle g v_thumb_tip_mcp v_index_mcp_wrist > 60 then
        FingerState.FOLDED
      else FingerState.EXTENDED
    let thumb_state :=
      if sqNorm (get_vector pinky_mcp thumb_tip) < 1/400 then
        FingerState.FOLDED
      else thumb₀
    let palm_normal :=
      normalize_vector g (vcross v_index_mcp_wrist (get_vector wrist pinky_mcp))
    let orientation := classifyOrientation palm_normal
    let fingersFun : Finger → FingerState := fun f =>
      match f with
      | .THUMB => thumb_state
      | .INDEX => idxF.1
      | .MIDDLE => midF.1
      | .RING => rngF.1
      | .PINKY => pnkF.1
    let anglesFun : Finger → ℚ := fun f =>
      match f with
      | .THUMB => 0
      | .INDEX => idxF.2
      | .MIDDLE => midF.2
      | .RING => rngF.2
      | .PINKY => pnkF.2
    (some { fingers := fingersFun, finger_angles := anglesFun,
            palm_orientation := orientation, thumb_position := "UNKNOWN",
            raw_landmarks := rb.1.map rowVec, timestamp := t }, rb.2)

/-- One entry of the lexicon dict: per-finger required-state lists in written
order, plus the optional `orientation`, `special`, `check`, `spread` and
`desc` keys.  Only `fingers`, `orientation` and `special` are ever read by
the matcher. -/
structure SignDef where
  fingers : List (Finger × List FingerState) := []
  orientation : Option (List Orientation) := none
  special : Option String := none
  check : Option String := none
  spread : Option Bool := none
  desc : Option String := none
deriving DecidableEq, Repr

/-- `ASLLexicon.get_definitions()`, in dict insertion order (Python dicts
iterate in insertion order, which fixes the tie-break of the matcher). -/
def LEXICON : List (String × SignDef) := [
  ("0", { desc := some "Fingers curled, thumb and index touching",
          fingers := [(.INDEX, [.FOLDED, .CURLED]), (.MIDDLE, [.EXTENDED, .CURLED]),
                      (.RING, [.EXTENDED, .CURLED]), (.PINKY, [.EXTENDED, .CURLED])],
          special := some "THUMB_INDEX_TOUCH" }),
  ("1", { fingers := [(.INDEX, [.EXTENDED]), (.MIDDLE, [.FOLDED]),
                      (.RING, [.FOLDED]), (.PINKY, [.FOLDED])] }),
  ("2", { fingers := [(.INDEX, [.EXTENDED]), (.MIDDLE, [.EXTENDED]),
                      (.RING, [.FOLDED]), (.PINKY, [.FOLDED])] }),
  ("3", { fingers := [(.THUMB, [.EXTENDED]), (.INDEX, [.EXTENDED]), (.MIDDLE, [.EXTENDED]),
                      (.RING, [.FOLDED]), (.PINKY, [.FOLDED])] }),
  ("4", { fingers := [(.THUMB, [.FOLDED]), (.INDEX, [.EXTENDED]), (.MIDDLE, [.EXTENDED]),
                      (.RING, [.EXTENDED]), (.PINKY, [.EXTENDED])] }),
  ("5", { fingers := [(.THUMB, [.EXTENDED]), (.INDEX, [.EXTENDED]), (.MIDDLE, [.EXTENDED]),
                      (.RING, [.EXTENDED]), (.PINKY, [.EXTENDED])],
          spread := some true }),
  ("A", { fingers := [(.INDEX, [.FOLDED]), (.MIDDLE, [.FOLDED]), (.RING, [.FOLDED]),
                      (.PINKY, [.FOLDED]), (.THUMB, [.EXTENDED])],
          orientation := some [.UP] }),
  ("B", { fingers := [(.INDEX, [.EXTENDED]), (.MIDDLE, [.EXTENDED]), (.RING, [.EXTENDED]),
                      (.PINKY, [.EXTENDED]), (.THUMB, [.FOLDED, .CURLED])],
          orientation := some [.UP] }),
  ("C", { fingers := [(.INDEX, [.CURLED]), (.MIDDLE, [.CURLED]), (.RING, [.CURLED]),
                      (.PINKY, [.CURLED]), (.THUMB, [.CURLED, .EXTENDED])],
          orientation := some [.LEFT, .RIGHT] }),
  ("D", { fingers := [(.INDEX, [.EXTENDED]), (.MIDDLE, [.FOLDED, .CURLED]),
                      (.RING, [.FOLDED, .CURLED]), (.PINKY, [.FOLDED, .CURLED])],
          special := some "THUMB_MIDDLE_TOUCH" }),
  ("E", { fingers := [(.INDEX, [.FOLDED, .CURLED]), (.MIDDLE, [.FOLDED, .CURLED]),
                      (.RING, [.FOLDED, .CURLED]), (.PINKY, [.FOLDED, .CURLED]),
                      (.THUMB, [.FOLDED, .CURLED])],
          check := some "NAILS_VISIBLE" }),
  ("F", { fingers := [(.INDEX, [.CURLED, .FOLDED]), (.MIDDLE, [.EXTENDED]),
                      (.RING, [.EXTENDED]), (.PINKY, [.EXTENDED])],
          special := some "THUMB_INDEX_TOUCH" }),
  ("G", { fingers := [(.INDEX, [.EXTENDED]), (.MIDDLE, [.FOLDED]), (.RING, [.FOLDED]),
                      (.PINKY, [.FOLDED]), (.THUMB, [.EXTENDED])],
          orientation := some [.LEFT, .RIGHT] }),
  ("H", { fingers := [(.INDEX, [.EXTENDED]), (.MIDDLE, [.EXTENDED]),
                      (.RING, [.FOLDED]), (.PINKY, [.FOLDED])],
          orientation := some [.LEFT, .RIGHT] }),
  ("I", { fingers := [(.INDEX, [.FOLDED]), (.MIDDLE, [.FOLDED]),
                      (.RING, [.FOLDED]), (.PINKY, [.EXTENDED])],
          orientation := some [.UP] }),
  ("K", { fingers := [(.INDEX, [.EXTENDED]), (.MIDDLE, [.EXTENDED]), (.RING, [.FOLDED]),
                      (.PINKY, [.FOLDED]), (.THUMB, [.EXTENDED])],
          orientation := some [.UP] }),
  ("L", { fingers := [(.INDEX, [.EXTENDED]), (.MIDDLE, [.FOLDED]), (.RING, [.FOLDED]),
                      (.PINKY, [.FOLDED]), (.THUMB, [.EXTENDED])],
          orientation := some [.UP] }),
  ("M", { fingers := [(.INDEX, [.FOLDED]), (.MIDDLE, [.FOLDED]), (.RING, [.FOLDED]),
                      (.PINKY, [.FOLDED]), (.THUMB, [.FOLDED])],
          special := some "THUMB_UNDER_RING" }),
  ("N", { fingers := [(.INDEX, [.FOLDED]), (.MIDDLE, [.FOLDED]),
                      (.RING, [.FOLDED]), (.PINKY, [.FOLDED])],
          special := some "THUMB_UNDER_MIDDLE" }),
  ("O", { fingers := [(.INDEX, [.CURLED]), (.MIDDLE, [.CURLED]),
                      (.RING, [.CURLED]), (.PINKY, [.CURLED])],
          special := some "ALL_TIPS_TOUCH" }),
  ("P", { fingers := [(.INDEX, [.EXTENDED]), (.MIDDLE, [.EXTENDED]), (.RING, [.FOLDED]),
                      (.PINKY, [.FOLDED]), (.THUMB, [.EXTENDED])],
          orientation := some [.DOWN] }),
  ("Q", { fingers := [(.INDEX, [.EXTENDED]), (.MIDDLE, [.FOLDED]), (.RING, [.FOLDED]),
                      (.PINKY, [.FOLDED]), (.THUMB, [.EXTENDED])],
          orientation := some [.DOWN] }),
  ("R", { fingers := [(.INDEX, [.EXTENDED]), (.MIDDLE, [.EXTENDED]),
                      (.RING, [.FOLDED]), (.PINKY, [.FOLDED])],
          special := some "INDEX_MIDDLE_CROSS" }),
  ("S", { fingers := [(.INDEX, [.FOLDED]), (.MIDDLE, [.FOLDED]), (.RING, [.FOLDED]),
                      (.PINKY, [.FOLDED]), (.THUMB, [.FOLDED])],
          orientation := some [.UP] }),
  ("T", { fingers := [(.INDEX, [.FOLDED]), (.MIDDLE, [.FOLDED]),
                      (.RING, [.FOLDED]), (.PINKY, [.FOLDED])],
          special := some "THUMB_UNDER_INDEX" }),
  ("U", { fingers := [(.INDEX, [.EXTENDED]), (.MIDDLE, [.EXTENDED]),
                      (.RING, [.FOLDED]), (.PINKY, [.FOLDED])],
          check := some "INDEX_MIDDLE_TOGETHER" }),
  ("V", { fingers := [(.INDEX, [.EXTENDED]), (.MIDDLE, [.EXTENDED]),
                      (.RING, [.FOLDED]), (.PINKY, [.FOLDED])],
          check := some "INDEX_MIDDLE_APART" }),
  ("W", { fingers := [(.INDEX, [.EXTENDED]), (.MIDDLE, [.EXTENDED]),
                      (.RING, [.EXTENDED]), (.PINKY, [.FOLDED])] }),
  ("X", { fingers := [(.INDEX, [.CURLED]), (.MIDDLE, [.FOLDED]),
                      (.RING, [.FOLDED]), (.PINKY, [.FOLDED])],
          orientation := some [.UP, .LEFT, .RIGHT] }),
  ("Y", { fingers := [(.INDEX, [.FOLDED]), (.MIDDLE, [.FOLDED]), (.RING, [.FOLDED]),
                      (.PINKY, [.EXTENDED]), (.THUMB, [.EXTENDED])] }),
  ("Z_START", { fingers := [(.INDEX, [.EXTENDED]), (.MIDDLE, [.FOLDED]),
                            (.RING, [.FOLDED]), (.PINKY, [.FOLDED])],
                orientation := some [.UP] }),
  ("I LOVE YOU", { fingers := [(.INDEX, [.EXTENDED]), (.MIDDLE, [.FOLDED]),
                               (.RING, [.FOLDED]), (.PINKY, [.EXTENDED]),
                               (.THUMB, [.EXTENDED])] }),
  ("ZERO", { fingers := [(.INDEX, [.CURLED]), (.MIDDLE, [.EXTENDED]), (.RING, [.EXTENDED]),
                         (.PINKY, [.EXTENDED]), (.THUMB, [.EXTENDED])],
             special := some "THUMB_INDEX_TOUCH" }),
  ("ONE", { fingers := [(.INDEX, [.EXTENDED]), (.MIDDLE, [.FOLDED]),
                        (.RING, [.FOLDED]), (.PINKY, [.FOLDED])] }),
  ("TWO", { fingers := [(.INDEX, [.EXTENDED]), (.MIDDLE, [.EXTENDED]),
                        (.RING, [.FOLDED]), (.PINKY, [.FOLDED])],
            check := some "INDEX_MIDDLE_APART" }),
  ("THREE", { fingers := [(.INDEX, [.EXTENDED]), (.MIDDLE, [.EXTENDED]), (.RING, [.EXTENDED]),
                          (.PINKY, [.FOLDED]), (.THUMB, [.EXTENDED])] }),
  ("FOUR", { fingers := [(.INDEX, [.EXTENDED]), (.MIDDLE, [.EXTENDED]), (.RING, [.EXTENDED]),
                         (.PINKY, [.EXTENDED]), (.THUMB, [.FOLDED])] }),
  ("FIVE", { fingers := [(.INDEX, [.EXTENDED]), (.MIDDLE, [.EXTENDED]), (.RING, [.EXTENDED]),
                         (.PINKY, [.EXTENDED]), (.THUMB, [.EXTENDED])] }),
  ("SIX", { fingers := [(.INDEX, [.EXTENDED]), (.MIDDLE, [.EXTENDED]), (.RING, [.EXTENDED]),
                        (.PINKY, [.FOLDED]), (.THUMB, [.FOLDED])],
            special := some "THUMB_PINKY_TOUCH" }),
  ("SEVEN", { fingers := [(.INDEX, [.EXTENDED]), (.MIDDLE, [.EXTENDED]), (.RING, [.FOLDED]),
                          (.PINKY, [.EXTENDED]), (.THUMB, [.FOLDED])] }),
  ("EIGHT", { fingers := [(.INDEX, [.EXTENDED]), (.MIDDLE, [.FOLDED]), (.RING, [.EXTENDED]),
                          (.PINKY, [.EXTENDED]), (.THUMB, [.FOLDED])] }),
  ("NINE", { fingers := [(.INDEX, [.FOLDED]), (.MIDDLE, [.EXTENDED]), (.RING, [.EXTENDED]),
                         (.PINKY, [.EXTENDED]), (.THUMB, [.FOLDED])] }),
  ("HELLO", { fingers := [(.INDEX, [.EXTENDED]), (.MIDDLE, [.EXTENDED]), (.RING, [.EXTENDED]),
                          (.PINKY, [.EXTENDED]), (.THUMB, [.EXTENDED])] }),
  ("YES", { fingers := [(.INDEX, [.FOLDED]), (.MIDDLE, [.FOLDED]), (.RING, [.FOLDED]),
                        (.PINKY, [.FOLDED]), (.THUMB, [.EXTENDED])] }),
  ("NO", { fingers := [(.INDEX, [.EXTENDED]), (.MIDDLE, [.EXTENDED]), (.RING, [.FOLDED]),
                       (.PINKY, [.FOLDED]), (.THUMB, [.EXTENDED])],
           special := some "INDEX_MIDDLE_THUMB_SNAP" }),
  ("OK", { fingers := [(.INDEX, [.CURLED]), (.MIDDLE, [.EXTENDED]),
                       (.RING, [.EXTENDED]), (.PINKY, [.EXTENDED])],
           special := some "THUMB_INDEX_TOUCH" }),
  ("CALL", { fingers := [(.INDEX, [.FOLDED]), (.MIDDLE, [.FOLDED]), (.RING, [.FOLDED]),
                         (.PINKY, [.EXTENDED]), (.THUMB, [.EXTENDED])] }),
  ("STOP", { fingers := [(.INDEX, [.EXTENDED]), (.MIDDLE, [.EXTENDED]), (.RING, [.EXTENDED]),
                         (.PINKY, [.EXTENDED]), (.THUMB, [.EXTENDED])],
             orientation := some [.FORWARD] }),
  ("HELP", { fingers := [(.INDEX, [.FOLDED]), (.MIDDLE, [.FOLDED]), (.RING, [.FOLDED]),
                         (.PINKY, [.FOLDED]), (.THUMB, [.EXTENDED])],
             orientation := some [.UP] }),
  ("THANK YOU", { fingers := [(.INDEX, [.EXTENDED]), (.MIDDLE, [.EXTENDED]),
                              (.RING, [.EXTENDED]), (.PINKY, [.EXTENDED]),
                              (.THUMB, [.EXTENDED])],
                  orientation := some [.FORWARD] }),
  ("PLEASE", { fingers := [(.INDEX, [.EXTENDED]), (.MIDDLE, [.EXTENDED]), (.RING, [.EXTENDED]),
                           (.PINKY, [.EXTENDED]), (.THUMB, [.FOLDED])] }),
  ("SORRY", { fingers := [(.INDEX, [.FOLDED]), (.MIDDLE, [.FOLDED]), (.RING, [.FOLDED]),
                          (.PINKY, [.FOLDED]), (.THUMB, [.FOLDED])] }),
  ("GOOD", { fingers := [(.INDEX, [.FOLDED]), (.MIDDLE, [.FOLDED]), (.RING, [.FOLDED]),
                         (.PINKY, [.FOLDED]), (.THUMB, [.EXTENDED])],
             orientation := some [.FORWARD] }),
  ("BAD", { fingers := [(.INDEX, [.EXTENDED]), (.MIDDLE, [.EXTENDED]), (.RING, [.EXTENDED]),
                        (.PINKY, [.EXTENDED]), (.THUMB, [.EXTENDED])],
            orientation := some [.DOWN] }),
  ("WATER", { fingers := [(.INDEX, [.EXTENDED]), (.MIDDLE, [.FOLDED]), (.RING, [.FOLDED]),
                          (.PINKY, [.FOLDED]), (.THUMB, [.EXTENDED])],
              special := some "THUMB_INDEX_TOUCH" }),
  ("FOOD", { fingers := [(.INDEX, [.CURLED]), (.MIDDLE, [.CURLED]), (.RING, [.CURLED]),
                         (.PINKY, [.CURLED]), (.THUMB, [.CURLED])],
             special := some "ALL_TIPS_TOUCH" }),
  ("DRINK", { fingers := [(.INDEX, [.CURLED]), (.MIDDLE, [.CURLED]), (.RING, [.CURLED]),
                          (.PINKY, [.CURLED]), (.THUMB, [.EXTENDED])] }),
  ("MONEY", { fingers := [(.INDEX, [.EXTENDED]), (.MIDDLE, [.EXTENDED]), (.RING, [.FOLDED]),
                          (.PINKY, [.FOLDED]), (.THUMB, [.EXTENDED])],
              special := some "THUMB_INDEX_TOUCH" }),
  ("HOME", { fingers := [(.INDEX, [.CURLED]), (.MIDDLE, [.CURLED]), (.RING, [.CURLED]),
                         (.PINKY, [.CURLED]), (.THUMB, [.CURLED])] }),
  ("WORK", { fingers := [(.INDEX, [.FOLDED]), (.MIDDLE, [.FOLDED]), (.RING, [.FOLDED]),
                         (.PINKY, [.FOLDED]), (.THUMB, [.FOLDED])],
             orientation := some [.DOWN] }),
  ("FRIEND", { fingers := [(.INDEX, [.CURLED]), (.MIDDLE, [.FOLDED]), (.RING, [.FOLDED]),
                           (.PINKY, [.FOLDED]), (.THUMB, [.CURLED])] }),
  ("LOVE", { fingers := [(.INDEX, [.FOLDED]), (.MIDDLE, [.FOLDED]), (.RING, [.FOLDED]),
                         (.PINKY, [.FOLDED]), (.THUMB, [.FOLDED])] }),
  ("HAPPY", { fingers := [(.INDEX, [.EXTENDED]), (.MIDDLE, [.EXTENDED]), (.RING, [.EXTENDED]),
                          (.PINKY, [.EXTENDED]), (.THUMB, [.EXTENDED])],
              orientation := some [.UP] }),
  ("SAD", { fingers := [(.INDEX, [.EXTENDED]), (.MIDDLE, [.EXTENDED]), (.RING, [.EXTENDED]),
                        (.PINKY, [.EXTENDED]), (.THUMB, [.FOLDED])],
            orientation := some [.DOWN] }),
  ("HUNGRY", { fingers := [(.INDEX, [.CURLED]), (.MIDDLE, [.CURLED]), (.RING, [.CURLED]),
                           (.PINKY, [.CURLED]), (.THUMB, [.EXTENDED])],
               orientation := some [.DOWN] }),
  ("TIRED", { fingers := [(.INDEX, [.CURLED]), (.MIDDLE, [.CURLED]), (.RING, [.CURLED]),
                          (.PINKY, [.CURLED]), (.THUMB, [.CURLED])],
              orientation := some [.DOWN] }),
  ("BATHROOM", { fingers := [(.INDEX, [.FOLDED]), (.MIDDLE, [.FOLDED]), (.RING, [.FOLDED]),
                             (.PINKY, [.FOLDED]), (.THUMB, [.EXTENDED])],
                 special := some "THUMB_INDEX_TOUCH" }),
  ("PHONE", { fingers := [(.INDEX, [.FOLDED]), (.MIDDLE, [.FOLDED]), (.RING, [.FOLDED]),
                          (.PINKY, [.EXTENDED]), (.THUMB, [.EXTENDED])] }),
  ("WAIT", { fingers := [(.INDEX, [.EXTENDED]), (.MIDDLE, [.EXTENDED]), (.RING, [.EXTENDED]),
                         (.PINKY, [.EXTENDED]), (.THUMB, [.EXTENDED])],
             spread := some true }),
  ("COME", { fingers := [(.INDEX, [.CURLED]), (.MIDDLE, [.FOLDED]), (.RING, [.FOLDED]),
                         (.PINKY, [.FOLDED]), (.THUMB, [.FOLDED])] }),
  ("GO", { fingers := [(.INDEX, [.EXTENDED]), (.MIDDLE, [.FOLDED]), (.RING, [.FOLDED]),
                       (.PINKY, [.FOLDED]), (.THUMB, [.FOLDED])],
           orientation := some [.FORWARD] }),
  ("MORE", { fingers := [(.INDEX, [.CURLED]), (.MIDDLE, [.CURLED]), (.RING, [.CURLED]),
                         (.PINKY, [.CURLED]), (.THUMB, [.CURLED])],
             special := some "ALL_TIPS_TOUCH" }),
  ("FINISHED", { fingers := [(.INDEX, [.EXTENDED]), (.MIDDLE, [.EXTENDED]), (.RING, [.EXTENDED]),
                             (.PINKY, [.EXTENDED]), (.THUMB, [.EXTENDED])],
                 spread := some true, orientation := some [.DOWN] })
]

/-- Landmark access `hand_state.raw_landmarks[i]` used by the special checks.
Indices 4..20 always exist for a state produced by `process` (at least 21
rows); the default is never reached there. -/
def lmAt (hs : HandState) (i : ℕ) : Vec3 :=
  (hs.raw_landmarks.get? i).getD ⟨0, 0, 0⟩

/-- The special-check dispatch of `ASLRecognizer._calculate_match_score`
(lines 1082–1116).  Every distance comparison `np.linalg.norm d < 0.05` is
made exactly on squares (`0.05 ** 2 = 1/400`).  Any tag other than the four
dispatched ones leaves `check_passed = False`. -/
def specialPassed (hs : HandState) (check_type : String) : Bool :=
  if check_type = "THUMB_INDEX_TOUCH" then
    decide (sqNorm (get_vector (lmAt hs 8) (lmAt hs 4)) < 1/400)
  else if check_type = "THUMB_MIDDLE_TOUCH" then
    decide (sqNorm (get_vector (lmAt hs 12) (lmAt hs 4)) < 1/400)
  else if check_type = "ALL_TIPS_TOUCH" then
    decide (sqNorm (get_vector (lmAt hs 4) (lmAt hs 8)) < 1/400) &&
    decide (sqNorm (get_vector (lmAt hs 4) (lmAt hs 12)) < 1/400)
  else if check_type = "THUMB_UNDER_INDEX" then
    decide ((lmAt hs 4).x > (lmAt hs 5).x)
  else
    false

/-- The fold step of the finger loop in `_calculate_match_score`: increment
`total_checks`, and the score when the observed state is in the required
list. -/
def fingerStep (hs : HandState) (acc : ℚ × ℕ) (fr : Finger × List FingerState) :
    ℚ × ℕ :=
  if hs.fingers fr.1 ∈ fr.2 then (acc.1 + 1, acc.2 + 1) else (acc.1, acc.2 + 1)

/-- `ASLRecognizer._calculate_match_score`: hits over applicable checks, `0`
for a definition with no checks.  (Every lexicon entry has a `fingers` key;
an entry without one simply contributes no finger checks, exactly as the
guarded loop does.) -/
def calculate_match_score (hs : HandState) (sign_def : SignDef) : ℚ :=
  let st₁ : ℚ × ℕ := sign_def.fingers.foldl (fingerStep hs) (0, 0)
  let st₂ : ℚ × ℕ :=
    match sign_def.orientation with
    | some os => if hs.palm_orientation ∈ os then (st₁.1 + 1, st₁.2 + 1) else (st₁.1, st₁.2 + 1)
    | none => st₁
  let st₃ : ℚ × ℕ :=
    match sign_def.special with
    | some tag => if specialPassed hs tag then (st₂.1 + 1, st₂.2 + 1) else (st₂.1, st₂.2 + 1)
    | none => st₂
  if st₃.2 = 0 then 0 else st₃.1 / (st₃.2 : ℚ)

/-- The fold step of the lexicon loop in `ASLRecognizer.predict`: keep the
strictly best score seen so far. -/
def bestStep (hs : HandState) (acc : Option String × ℚ) (e : String × SignDef) :
    Option String × ℚ :=
  let confidence := calculate_match_score hs e.2
  if confidence > acc.2 then (some e.1, confidence) else acc

/-- The lexicon scan of `ASLRecognizer.predict`, starting from
`(None, 0.0)`. -/
def scanBest (hs : HandState) : Option String × ℚ :=
  LEXICON.foldl (bestStep hs) (none, 0)

/-- The lines of `ASLRecognizer.predict` that run on a successfully extracted
`HandState`: scan the lexicon, then threshold at
`Config.CONFIDENCE_THRESHOLD`. -/
def predictFromState (hs : HandState) : Option String × ℚ :=
  let b := scanBest hs
  if b.2 ≥ CONFIDENCE_THRESHOLD then b else (none, b.2)

/-- `ASLRecognizer.predict`: run the extractor; on rejection return
`(None, 0.0)`. -/
def predict (g : NumpyReal) (filters : FilterBank) (t : ℚ)
    (raw_landmarks : List Lm) : (Option String × ℚ) × FilterBank :=
  match process g filters t raw_landmarks with
  | (none, filters') => ((none, 0), filters')
  | (some hs, filters') => (predictFromState hs, filters')

/-- `SentenceBuilder` state: the committed words, the vote deque (oldest
first, capacity `BUFFER_SIZE`), and the last-commit timestamp. -/
structure SentenceBuilder where
  current_sentence : List String := []
  frame_buffer : List String := []
  last_word_time : ℚ := 0
deriving DecidableEq, Repr

/-- Python truthiness of the `prediction` argument: `None` and the empty
string are falsy. -/
def falsy : Option String → Bool
  | none => true
  | some s => s.isEmpty

/-- `deque.append` with `maxlen = BUFFER_SIZE`: evict the oldest element when
full. -/
def bufferAppend (buf : List String) (p : String) : List String :=
  if buf.length = BUFFER_SIZE then buf.tail ++ [p] else buf ++ [p]

/-- The distinct elements of `l` in first-occurrence order: the iteration
order of `collections.Counter(l)`. -/
def counterKeys (l : List String) : List String :=
  l.foldl (fun acc s => if s ∈ acc then acc else acc ++ [s]) []

/-- `Counter(l).most_common(1)[0]`: the (first-encountered, on ties) element
with the highest count, paired with its count. -/
def most_common1 (l : List String) : String × ℕ :=
  (counterKeys l).foldl
    (fun best k => if l.count k > best.2 then (k, l.count k) else best) ("", 0)

/-- `SentenceBuilder._commit_word` at wall-clock time `now`: drop the commit
when the sentence is nonempty, ends in the same word, and the cooldown has
not yet elapsed; otherwise append and refresh the timestamp. -/
def commit_word (st : SentenceBuilder) (word : String) (now : ℚ) :
    SentenceBuilder :=
  if st.current_sentence ≠ [] ∧ st.current_sentence.getLast? = some word ∧
      now - st.last_word_time < WORD_COOLDOWN then
    st
  else
    { st with current_sentence := st.current_sentence ++ [word],
              last_word_time := now }

/-- `SentenceBuilder.add_prediction` at wall-clock time `now`.  (`confidence`
is accepted and ignored, as in the source.) -/
def add_prediction (st : SentenceBuilder) (prediction : Option String)
    (confidence : ℚ) (now : ℚ) : SentenceBuilder :=
  if falsy prediction then st
  else
    let buf := bufferAppend st.frame_buffer (prediction.getD "")
    if buf.length = BUFFER_SIZE then
      let mc := most_common1 buf
      if (mc.2 : ℚ) > (BUFFER_SIZE : ℚ) * MAJORITY_THRESHOLD then
        { commit_word { st with frame_buffer := buf } mc.1 now with frame_buffer := [] }
      else { st with frame_buffer := buf }
    else { st with frame_buffer := buf }

/-- `SentenceBuilder.get_sentence`. -/
def get_sentence (st : SentenceBuilder) : String :=
  " ".intercalate st.current_sentence

/-- Number of applicable checks of a definition (the final value of
`total_checks`). -/
def checkCount (d : SignDef) : ℕ :=
  d.fingers.length + (if d.orientation.isSome then 1 else 0) +
    (if d.special.isSome then 1 else 0)

/-- Number of finger checks the hand state satisfies. -/
def fingerHits (hs : HandState) (l : List (Finger × List FingerState)) : ℕ :=
  l.countP (fun fr => decide (hs.fingers fr.1 ∈ fr.2))

/-- Number of applicable checks the hand state satisfies (the final value of
`score`). -/
def hitCount (hs : HandState) (d : SignDef) : ℕ :=
  fingerHits hs d.fingers +
    (match d.orientation with
     | some os => if hs.palm_orientation ∈ os then 1 else 0
     | none => 0) +
    (match d.special with
     | some tag => if specialPassed hs tag then 1 else 0
     | none => 0)

/-- The fold computing the maximum lexicon score (with the scan's `0.0`
floor). -/
def maxConf (hs : HandState) : ℚ :=
  LEXICON.foldl (fun m e => max m (calculate_match_score hs e.2)) 0

/-- An arbitrary interpretation of the transcendental primitives, used only
to instantiate universally quantified results at concrete inputs; nothing
proved below depends on the choice of interpretation. -/
def someNumpyReal : NumpyReal := { sqrt := fun _ => 0, acosDeg := fun _ => 0 }

/-- A concrete hand state: every finger `EXTENDED`, palm `UP`, all 21
landmarks at the origin. -/
def hsAllExt : HandState :=
  { fingers := fun _ => FingerState.EXTENDED, finger_angles := fun _ => 0,
    palm_orientation := Orientation.UP, thumb_position := "UNKNOWN",
    raw_landmarks := List.replicate 21 ⟨0, 0, 0⟩, timestamp := 0 }

/-- A filter bank as left behind by an earlier frame: channel 9 (the x axis
of landmark 3) has an existing filter with an older timestamp. -/
def c2Bank : FilterBank :=
  [(9, { t_prev := 0, x_prev := some 0, dx_prev := 0,
         min_cutoff := 3/2, beta := 8, d_cutoff := 1 })]

/-- A 21-landmark frame whose landmark 3 is missing its `x` key: at channel 9
the filter arithmetic `(x - x_prev) / t_e` then raises `TypeError` mid-loop. -/
def c2Frame : List Lm :=
  List.replicate 3 ⟨some 1, some 1, some 1⟩ ++ [⟨none, some 1, some 1⟩] ++
    List.replicate 17 ⟨some 1, some 1, some 1⟩

/-- The last committed word after `_commit_word` is always `word`, whether
the commit was appended or suppressed. -/
theorem commit_word_getLast (st : SentenceBuilder) (word : String) (now : ℚ) :
    (commit_word st word now).current_sentence.getLast? = some word := by
  unfold commit_word
  split_ifs with h
  · exact h.2.1
  · simp

/-- C8: whenever the elapsed time `t - t_prev` is nonpositive,
`OneEuroFilter.__call__` returns the raw `x` itself and leaves every filter
state field (`x_prev`, `dx_prev`, `t_prev`, and the parameters) unchanged. -/
theorem oneEuro_nonpositive_elapsed_id (f : OneEuroFilter) (t : ℚ)
    (x : Option ℚ) (h : t - f.t_prev ≤ 0) :
    f.call t x = .ok (x, f) := by
  unfold OneEuroFilter.call
  simp [h]

/-- Witness for C8 at a duplicate timestamp. -/
theorem oneEuro_nonpositive_elapsed_id_witness :
    (1 : ℚ) - 1 ≤ 0 ∧
    OneEuroFilter.call ⟨1, some 2, 0, 3/2, 8, 1⟩ 1 (some 5) =
      .ok (some 5, ⟨1, some 2, 0, 3/2, 8, 1⟩) :=
  ⟨by norm_num, oneEuro_nonpositive_elapsed_id ⟨1, some 2, 0, 3/2, 8, 1⟩ 1 (some 5) (by norm_num)⟩

/-- C7: the palm normal is classified by dominant absolute axis component,
z checked first, then y, then x by elimination, with the direction chosen by
the sign of the dominant component. -/
theorem palm_orientation_dominant_axis (n : Vec3) :
    ((|n.z| > |n.x| ∧ |n.z| > |n.y|) →
      classifyOrientation n =
        (if n.z < 0 then Orientation.FORWARD else Orientation.BACKWARD)) ∧
    (¬(|n.z| > |n.x| ∧ |n.z| > |n.y|) → |n.y| > |n.x| →
      classifyOrientation n =
        (if n.y < 0 then Orientation.UP else Orientation.DOWN)) ∧
    (¬(|n.z| > |n.x| ∧ |n.z| > |n.y|) → ¬(|n.y| > |n.x|) →
      classifyOrientation n =
        (if n.x < 0 then Orientation.LEFT else Orientation.RIGHT)) := by
  unfold classifyOrientation
  refine ⟨fun h => ?_, fun h h₂ => ?_, fun h h₂ => ?_⟩
  · rw [if_pos h]
  · rw [if_neg h, if_pos h₂]
  · rw [if_neg h, if_neg h₂]

/-- Witness for C7: a normal dominated by a negative z component is
`FORWARD`. -/
theorem palm_orientation_dominant_axis_witness :
    (|(-4 : ℚ)| > |(1 : ℚ)| ∧ |(-4 : ℚ)| > |(2 : ℚ)|) ∧
    classifyOrientation ⟨1, 2, -4⟩ = Orientation.FORWARD := by
  refine ⟨⟨by norm_num, by norm_num⟩, ?_⟩
  have h := (palm_orientation_dominant_axis ⟨1, 2, -4⟩).1 ⟨by norm_num, by norm_num⟩
  simpa using h

/-- C4: a commit of `word` is dropped exactly when the sentence is nonempty,
its last token equals `word`, and strictly less than the 0.5 s cooldown has
elapsed since the last commit; a non-suppressed commit appends `word` and
refreshes the timestamp; and a commit following a commit of a different word
is never suppressed, regardless of timing. -/
theorem commit_cooldown_characterization (st : SentenceBuilder) (word : String)
    (now : ℚ) :
    ((st.current_sentence ≠ [] ∧ st.current_sentence.getLast? = some word ∧
        now - st.last_word_time < WORD_COOLDOWN) →
      commit_word st word now = st) ∧
    (¬(st.current_sentence ≠ [] ∧ st.current_sentence.getLast? = some word ∧
        now - st.last_word_time < WORD_COOLDOWN) →
      commit_word st word now =
        { st with current_sentence := st.current_sentence ++ [word],
                  last_word_time := now }) ∧
    (∀ a b : String, ∀ t₃ : ℚ, a ≠ b →
      commit_word (commit_word st b now) a t₃ =
        { commit_word st b now with
            current_sentence := (commit_word st b now).current_sentence ++ [a],
            last_word_time := t₃ }) := by
  refine ⟨fun h => ?_, fun h => ?_, fun a b t₃ hab => ?_⟩
  · unfold commit_word; rw [if_pos h]
  · unfold commit_word; rw [if_neg h]
  · have hlast := commit_word_getLast st b now
    set s' := commit_word st b now with hs'
    unfold commit_word
    rw [if_neg]
    rintro ⟨-, h₂, -⟩
    rw [hlast] at h₂
    exact hab (Option.some.inj h₂).symm

/-- Witness for C4: an immediate repeat of the same word is dropped. -/
theorem commit_cooldown_characterization_witness :
    ((["A"] : List String) ≠ [] ∧ (["A"] : List String).getLast? = some "A" ∧
      (1/4 : ℚ) - 0 < WORD_COOLDOWN) ∧
    commit_word ⟨["A"], [], 0⟩ "A" (1/4) = ⟨["A"], [], 0⟩ := by
  refine ⟨⟨by simp, by simp, by norm_num [WORD_COOLDOWN]⟩, ?_⟩
  exact (commit_cooldown_characterization ⟨["A"], [], 0⟩ "A" (1/4)).1
    ⟨by simp, by simp, by norm_num [WORD_COOLDOWN]⟩

/-- C10: a suppressed repeat leaves the whole `SentenceBuilder` unchanged
(in particular the last-commit timestamp is not refreshed), and once the
cooldown measured from the original commit has elapsed the same word is
appended again. -/
theorem suppressed_commit_state_unchanged (st : SentenceBuilder) (word : String)
    (now now' : ℚ) :
    ((st.current_sentence ≠ [] ∧ st.current_sentence.getLast? = some word ∧
        now - st.last_word_time < WORD_COOLDOWN) →
      commit_word st word now = st) ∧
    (st.current_sentence.getLast? = some word →
      WORD_COOLDOWN ≤ now' - st.last_word_time →
      commit_word st word now' =
        { st with current_sentence := st.current_sentence ++ [word],
                  last_word_time := now' }) := by
  refine ⟨fun h => ?_, fun _ h₂ => ?_⟩
  · unfold commit_word; rw [if_pos h]
  · unfold commit_word
    rw [if_neg]
    rintro ⟨-, -, h₃⟩
    exact absurd h₂ (not_le.mpr h₃)

/-- Witness for C10: the suppressed attempt changes nothing, and the word is
re-committed as soon as 0.5 s from the original commit have passed. -/
theorem suppressed_commit_state_unchanged_witness :
    commit_word ⟨["B"], [], 10⟩ "B" (101/10) = ⟨["B"], [], 10⟩ ∧
    commit_word ⟨["B"], [], 10⟩ "B" (21/2) = ⟨["B", "B"], [], 21/2⟩ := by
  constructor
  · exact (suppressed_commit_state_unchanged ⟨["B"], [], 10⟩ "B" (101/10) (21/2)).1
      ⟨by simp, by simp, by norm_num [WORD_COOLDOWN]⟩
  · have h := (suppressed_commit_state_unchanged ⟨["B"], [], 10⟩ "B" (101/10) (21/2)).2
      (by simp) (by norm_num [WORD_COOLDOWN])
    simpa using h

/-- C3: a falsy (`None`/empty) prediction is never appended and changes
nothing; a truthy one is appended (evicting the oldest when full); the
majority evaluation runs only when the buffer is full (length exactly
`BUFFER_SIZE = 8`); and exactly when the most frequent label's count strictly
exceeds `8 * 0.65 = 5.2` (6 of 8 yes, 5 of 8 no) the label is committed and
the buffer fully cleared, otherwise the buffer keeps sliding. -/
theorem majority_vote_characterization (st : SentenceBuilder)
    (prediction : Option String) (confidence now : ℚ) :
    (falsy prediction = true → add_prediction st prediction confidence now = st) ∧
    (falsy prediction = false →
      (bufferAppend st.frame_buffer (prediction.getD "")).length ≠ BUFFER_SIZE →
      add_prediction st prediction confidence now =
        { st with frame_buffer := bufferAppend st.frame_buffer (prediction.getD "") }) ∧
    (falsy prediction = false →
      (bufferAppend st.frame_buffer (prediction.getD "")).length = BUFFER_SIZE →
      (((most_common1 (bufferAppend st.frame_buffer (prediction.getD ""))).2 : ℚ) >
          (BUFFER_SIZE : ℚ) * MAJORITY_THRESHOLD →
        add_prediction st prediction confidence now =
          { commit_word
              { st with frame_buffer := bufferAppend st.frame_buffer (prediction.getD "") }
              (most_common1 (bufferAppend st.frame_buffer (prediction.getD ""))).1 now
            with frame_buffer := [] }) ∧
      (((most_common1 (bufferAppend st.frame_buffer (prediction.getD ""))).2 : ℚ) ≤
          (BUFFER_SIZE : ℚ) * MAJORITY_THRESHOLD →
        add_prediction st prediction confidence now =
          { st with frame_buffer := bufferAppend st.frame_buffer (prediction.getD "") })) := by
  refine ⟨fun h => ?_, fun h h₂ => ?_, fun h h₂ => ⟨fun h₃ => ?_, fun h₃ => ?_⟩⟩
  · simp [add_prediction, h]
  · simp only [add_prediction, h, Bool.false_eq_true, if_false]
    rw [if_neg h₂]
  · simp only [add_prediction, h, Bool.false_eq_true, if_false]
    rw [if_pos h₂, if_pos h₃]
  · simp only [add_prediction, h, Bool.false_eq_true, if_false]
    rw [if_pos h₂, if_neg (not_lt.mpr h₃)]

/-- Witness for C3: six of eight votes for A commit A and clear the buffer. -/
theorem majority_vote_characterization_witness :
    falsy (some "A") = false ∧
    (bufferAppend ["A", "A", "A", "A", "A", "B", "C"] "A").length = BUFFER_SIZE ∧
    ((most_common1 (bufferAppend ["A", "A", "A", "A", "A", "B", "C"] "A")).2 : ℚ) >
      (BUFFER_SIZE : ℚ) * MAJORITY_THRESHOLD ∧
    add_prediction ⟨[], ["A", "A", "A", "A", "A", "B", "C"], 0⟩ (some "A") 1 2 =
      ⟨["A"], [], 2⟩ := by
  have h :=
    ((majority_vote_characterization ⟨[], ["A", "A", "A", "A", "A", "B", "C"], 0⟩
        (some "A") 1 2).2.2 rfl (by decide)).1 (by with_unfolding_all decide)
  exact ⟨rfl, by decide, by with_unfolding_all decide, h.trans (by with_unfolding_all decide)⟩

/-- C1 (amended): every frame with fewer than 21 landmarks is rejected —
`process` returns `None` without creating or updating any filter state, and
`predict` returns `(None, 0.0)` — for every session history. -/
theorem short_frame_rejected (g : NumpyReal) (filters : FilterBank) (t : ℚ)
    (raw_landmarks : List Lm) (h : raw_landmarks.length < 21) :
    process g filters t raw_landmarks = (none, filters) ∧
    predict g filters t raw_landmarks = ((none, 0), filters) := by
  have hp : process g filters t raw_landmarks = (none, filters) := by
    unfold process; rw [if_pos h]
  exact ⟨hp, by unfold predict; rw [hp]⟩

/-- Witness for C1 at a 5-landmark frame and an empty session. -/
theorem short_frame_rejected_witness :
    (List.replicate 5 (⟨some 0, some 0, some 0⟩ : Lm)).length < 21 ∧
    process someNumpyReal [] 0 (List.replicate 5 ⟨some 0, some 0, some 0⟩) =
      (none, []) ∧
    predict someNumpyReal [] 0 (List.replicate 5 ⟨some 0, some 0, some 0⟩) =
      ((none, 0), []) := by
  have h := short_frame_rejected someNumpyReal [] 0
    (List.replicate 5 ⟨some 0, some 0, some 0⟩) (by decide)
  exact ⟨by decide, h.1, h.2⟩

/-- C1 counterexample: a 22-landmark frame — a landmark count that is not
exactly 21 — is NOT rejected: the guard only tests `len < 21`, so `process`
produces a hand state and creates per-channel filter state. -/
theorem long_frame_not_rejected_cex :
    (process someNumpyReal [] 0 (List.replicate 22 ⟨some 0, some 0, some 0⟩)).1.isSome =
      true ∧
    (process someNumpyReal [] 0 (List.replicate 22 ⟨some 0, some 0, some 0⟩)).2 ≠ [] := by
  exact ⟨by with_unfolding_all decide, by with_unfolding_all decide⟩

/-- C2: at a frame whose landmark 3 is missing `x` (with existing filter
state for its channel), the smoothing exception strikes mid-loop and the
fallback appends all 21 raw rows to the three already-smoothed rows: the
returned array has 24 rows and is NOT the frame's raw coordinates, although
the code logs that it is `using raw landmarks`. -/
theorem smoothing_fallback_corrupts_rows :
    c2Frame.length = 21 ∧
    (smooth_landmarks c2Bank 1 c2Frame).1.length = 24 ∧
    (smooth_landmarks c2Bank 1 c2Frame).1 ≠ c2Frame.map rawRow := by
  exact ⟨by decide, by with_unfolding_all decide, by with_unfolding_all decide⟩

/-- The finger loop of `_calculate_match_score` adds one check per required
finger and one hit per satisfied requirement. -/
theorem fingers_foldl (hs : HandState) (l : List (Finger × List FingerState))
    (s : ℚ) (n : ℕ) :
    l.foldl (fingerStep hs) (s, n) = (s + (fingerHits hs l : ℚ), n + l.length) := by
  induction l generalizing s n with
  | nil => simp [fingerHits]
  | cons fr rest ih =>
    simp only [List.foldl_cons, fingerStep]
    by_cases h : hs.fingers fr.1 ∈ fr.2
    · rw [if_pos h, ih]
      unfold fingerHits
      rw [List.countP_cons_of_pos _ _ (by simpa using h)]
      simp only [Prod.mk.injEq, List.length_cons]
      exact ⟨by push_cast; ring_nf, by omega⟩
    · rw [if_neg h, ih]
      unfold fingerHits
      rw [List.countP_cons_of_neg _ _ (by simpa using h)]
      simp only [Prod.mk.injEq, List.length_cons]
      exact ⟨by ring_nf, by omega⟩

/-- The match score is the number of satisfied applicable checks over the
number of applicable checks, and `0` when there are none. -/
theorem match_score_eq (hs : HandState) (d : SignDef) :
    calculate_match_score hs d =
      if checkCount d = 0 then 0 else (hitCount hs d : ℚ) / (checkCount d : ℚ) := by
  unfold calculate_match_score checkCount hitCount
  rw [fingers_foldl]
  rcases ho : d.orientation with _ | os <;> rcases hsp : d.special with _ | tag <;>
    simp only [ho, hsp, Option.isSome_none, Option.isSome_some, Bool.false_eq_true,
      if_false, if_true]
  · simp
  · by_cases h2 : specialPassed hs tag <;> simp [h2]
  · by_cases hm : hs.palm_orientation ∈ os <;> simp [hm]
  · by_cases hm : hs.palm_orientation ∈ os <;> by_cases h2 : specialPassed hs tag <;>
      simp [hm, h2]

/-- No definition can satisfy more checks than it has. -/
theorem hitCount_le_checkCount (hs : HandState) (d : SignDef) :
    hitCount hs d ≤ checkCount d := by
  unfold hitCount checkCount fingerHits
  have h := List.countP_le_length
    (p := fun fr : Finger × List FingerState => decide (hs.fingers fr.1 ∈ fr.2))
    (l := d.fingers)
  rcases ho : d.orientation with _ | os <;> rcases hsp : d.special with _ | tag <;>
    simp only [ho, hsp, Option.isSome_none, Option.isSome_some, Bool.false_eq_true,
      if_false, if_true] <;> (try split_ifs) <;> omega

/-- A definition whose special check does not pass cannot reach score 1. -/
theorem special_fail_hit_lt (hs : HandState) (d : SignDef) (tag : String)
    (hd : d.special = some tag) (hfail : specialPassed hs tag = false) :
    hitCount hs d < checkCount d := by
  unfold hitCount checkCount fingerHits
  have h := List.countP_le_length
    (p := fun fr : Finger × List FingerState => decide (hs.fingers fr.1 ∈ fr.2))
    (l := d.fingers)
  rcases ho : d.orientation with _ | os <;>
    simp only [ho, hd, hfail, Option.isSome_none, Option.isSome_some,
      Bool.false_eq_true, if_false, if_true] <;> (try split_ifs) <;> omega

/-- A definition with a failing special check scores strictly below 1. -/
theorem score_lt_one_of_special_fail (hs : HandState) (d : SignDef) (tag : String)
    (hd : d.special = some tag) (hfail : specialPassed hs tag = false) :
    calculate_match_score hs d < 1 := by
  rw [match_score_eq]
  have hne : checkCount d ≠ 0 := by
    unfold checkCount
    simp only [hd, Option.isSome_some, if_true]
    omega
  rw [if_neg hne]
  have hpos : (0 : ℚ) < (checkCount d : ℚ) := by
    exact_mod_cast Nat.pos_of_ne_zero hne
  rw [div_lt_one hpos]
  exact_mod_cast special_fail_hit_lt hs d tag hd hfail

/-- C6: for every hand state and sign definition, the match score is exactly
the number of satisfied applicable checks divided by the number of applicable
checks, with strict per-check pass/fail; a definition with zero checks scores
exactly 0; and the score always lies in `[0, 1]`. -/
theorem match_score_fraction (hs : HandState) (d : SignDef) :
    calculate_match_score hs d =
      (if checkCount d = 0 then 0 else (hitCount hs d : ℚ) / (checkCount d : ℚ)) ∧
    hitCount hs d ≤ checkCount d ∧
    0 ≤ calculate_match_score hs d ∧ calculate_match_score hs d ≤ 1 := by
  refine ⟨match_score_eq hs d, hitCount_le_checkCount hs d, ?_, ?_⟩
  · rw [match_score_eq]
    split_ifs
    · exact le_refl 0
    · exact div_nonneg (Nat.cast_nonneg _) (Nat.cast_nonneg _)
  · rw [match_score_eq]
    split_ifs with h
    · norm_num
    · have hpos : (0 : ℚ) < (checkCount d : ℚ) := by
        exact_mod_cast Nat.pos_of_ne_zero h
      rw [div_le_one hpos]
      exact_mod_cast hitCount_le_checkCount hs d

/-- C9: the special-check dispatch passes only for the four handled tags
(`THUMB_INDEX_TOUCH`, `THUMB_MIDDLE_TOUCH`, `ALL_TIPS_TOUCH`,
`THUMB_UNDER_INDEX`); the lexicon entries `M`, `N`, `SIX` and `NO` carry
unhandled tags, so their special check counts toward the total but never
passes and they can never score 1.0; and the `check`/`spread` keys of a
definition contribute nothing to the score. -/
theorem unhandled_special_tags (hs : HandState) :
    (∀ tag : String, tag ≠ "THUMB_INDEX_TOUCH" → tag ≠ "THUMB_MIDDLE_TOUCH" →
      tag ≠ "ALL_TIPS_TOUCH" → tag ≠ "THUMB_UNDER_INDEX" →
      specialPassed hs tag = false) ∧
    (∀ d : SignDef, List.lookup "M" LEXICON = some d →
      calculate_match_score hs d < 1) ∧
    (∀ d : SignDef, List.lookup "N" LEXICON = some d →
      calculate_match_score hs d < 1) ∧
    (∀ d : SignDef, List.lookup "SIX" LEXICON = some d →
      calculate_match_score hs d < 1) ∧
    (∀ d : SignDef, List.lookup "NO" LEXICON = some d →
      calculate_match_score hs d < 1) ∧
    (∀ (d : SignDef) (cv : Option String) (sv : Option Bool),
      calculate_match_score hs { d with check := cv, spread := sv } =
        calculate_match_score hs d) := by
  have hunh : ∀ tag : String, tag ≠ "THUMB_INDEX_TOUCH" → tag ≠ "THUMB_MIDDLE_TOUCH" →
      tag ≠ "ALL_TIPS_TOUCH" → tag ≠ "THUMB_UNDER_INDEX" →
      specialPassed hs tag = false := by
    intro tag h1 h2 h3 h4
    unfold specialPassed
    rw [if_neg h1, if_neg h2, if_neg h3, if_neg h4]
  refine ⟨hunh, ?_, ?_, ?_, ?_, ?_⟩
  · intro d hd
    have hsp : (List.lookup "M" LEXICON).map SignDef.special =
        some (some "THUMB_UNDER_RING") := by decide
    rw [hd] at hsp
    simp only [Option.map_some', Option.some.injEq] at hsp
    exact score_lt_one_of_special_fail hs d "THUMB_UNDER_RING" hsp
      (hunh "THUMB_UNDER_RING" (by decide) (by decide) (by decide) (by decide))
  · intro d hd
    have hsp : (List.lookup "N" LEXICON).map SignDef.special =
        some (some "THUMB_UNDER_MIDDLE") := by decide
    rw [hd] at hsp
    simp only [Option.map_some', Option.some.injEq] at hsp
    exact score_lt_one_of_special_fail hs d "THUMB_UNDER_MIDDLE" hsp
      (hunh "THUMB_UNDER_MIDDLE" (by decide) (by decide) (by decide) (by decide))
  · intro d hd
    have hsp : (List.lookup "SIX" LEXICON).map SignDef.special =
        some (some "THUMB_PINKY_TOUCH") := by decide
    rw [hd] at hsp
    simp only [Option.map_some', Option.some.injEq] at hsp
    exact score_lt_one_of_special_fail hs d "THUMB_PINKY_TOUCH" hsp
      (hunh "THUMB_PINKY_TOUCH" (by decide) (by decide) (by decide) (by decide))
  · intro d hd
    have hsp : (List.lookup "NO" LEXICON).map SignDef.special =
        some (some "INDEX_MIDDLE_THUMB_SNAP") := by decide
    rw [hd] at hsp
    simp only [Option.map_some', Option.some.injEq] at hsp
    exact score_lt_one_of_special_fail hs d "INDEX_MIDDLE_THUMB_SNAP" hsp
      (hunh "INDEX_MIDDLE_THUMB_SNAP" (by decide) (by decide) (by decide) (by decide))
  · intro d cv sv
    cases d
    rfl

/-- Witness for C9 at a concrete hand state: the `M` tag never passes and the
`M` definition scores below 1. -/
theorem unhandled_special_tags_witness :
    specialPassed hsAllExt "THUMB_UNDER_RING" = false ∧
    calculate_match_score hsAllExt ((List.lookup "M" LEXICON).getD {}) < 1 := by
  have h := unhandled_special_tags hsAllExt
  exact ⟨h.1 "THUMB_UNDER_RING" (by decide) (by decide) (by decide) (by decide),
    h.2.1 _ (by decide)⟩

/-- The confidence accumulated by the lexicon scan is the running maximum of
the entry scores. -/
theorem bestFold_snd (hs : HandState) (l : List (String × SignDef))
    (acc : Option String × ℚ) :
    (l.foldl (bestStep hs) acc).2 =
      l.foldl (fun m e => max m (calculate_match_score hs e.2)) acc.2 := by
  induction l generalizing acc with
  | nil => rfl
  | cons e rest ih =>
    simp only [List.foldl_cons]
    rw [ih]
    congr 1
    unfold bestStep
    by_cases h : calculate_match_score hs e.2 > acc.2
    · rw [if_pos h]
      exact (max_eq_right h.le).symm
    · rw [if_neg h]
      exact (max_eq_left (not_lt.mp h)).symm

/-- The running maximum never drops below its initial value. -/
theorem le_maxFold_init (hs : HandState) (l : List (String × SignDef)) (m : ℚ) :
    m ≤ l.foldl (fun m e => max m (calculate_match_score hs e.2)) m := by
  induction l generalizing m with
  | nil => exact le_refl m
  | cons e rest ih =>
    simp only [List.foldl_cons]
    exact le_trans (le_max_left _ _) (ih _)

/-- Every element's score is bounded by the running maximum. -/
theorem mem_le_maxFold (hs : HandState) (l : List (String × SignDef))
    (e : String × SignDef) (he : e ∈ l) :
    ∀ m : ℚ, calculate_match_score hs e.2 ≤
      l.foldl (fun m x => max m (calculate_match_score hs x.2)) m := by
  induction l with
  | nil => cases he
  | cons e' rest ih =>
    intro m
    simp only [List.foldl_cons]
    rcases List.mem_cons.mp he with h | h
    · subst h
      exact le_trans (le_max_right _ _) (le_maxFold_init hs rest _)
    · exact ih h _

/-- The label kept by the lexicon scan: if the final confidence strictly
beats the initial one, the label is the first entry attaining the final
confidence; otherwise the accumulator is returned untouched. -/
theorem bestFold_fst (hs : HandState) (l : List (String × SignDef)) :
    ∀ acc : Option String × ℚ,
      ((l.foldl (bestStep hs) acc).2 > acc.2 →
        (l.foldl (bestStep hs) acc).1 =
          (l.find? (fun e => decide (calculate_match_score hs e.2 =
            (l.foldl (bestStep hs) acc).2))).map Prod.fst) ∧
      ((l.foldl (bestStep hs) acc).2 = acc.2 → l.foldl (bestStep hs) acc = acc) := by
  induction l with
  | nil =>
    intro acc
    exact ⟨fun h => absurd h (lt_irrefl _), fun _ => rfl⟩
  | cons e rest ih =>
    intro acc
    simp only [List.foldl_cons]
    by_cases h : calculate_match_score hs e.2 > acc.2
    · have hacc : bestStep hs acc e = (some e.1, calculate_match_score hs e.2) := by
        unfold bestStep
        rw [if_pos h]
      simp only [hacc]
      have hmono : calculate_match_score hs e.2 ≤
          (rest.foldl (bestStep hs) (some e.1, calculate_match_score hs e.2)).2 := by
        rw [bestFold_snd]
        exact le_maxFold_init hs rest _
      constructor
      · intro _
        rcases lt_or_eq_of_le hmono with h2 | h2
        · have hres := (ih (some e.1, calculate_match_score hs e.2)).1 h2
          rw [List.find?_cons_of_neg, hres]
          simp only [decide_eq_true_eq]
          exact ne_of_lt h2
        · have hres := (ih (some e.1, calculate_match_score hs e.2)).2 h2.symm
          rw [hres, List.find?_cons_of_pos]
          · simp
          · simp
      · intro habs
        exfalso
        have : acc.2 < (rest.foldl (bestStep hs) (some e.1, calculate_match_score hs e.2)).2 :=
          lt_of_lt_of_le h hmono
        rw [habs] at this
        exact lt_irrefl _ this
    · have hacc : bestStep hs acc e = acc := by
        unfold bestStep
        rw [if_neg h]
      simp only [hacc]
      constructor
      · intro hgt
        have hres := (ih acc).1 hgt
        rw [List.find?_cons_of_neg, hres]
        simp only [decide_eq_true_eq]
        exact ne_of_lt (lt_of_le_of_lt (not_lt.mp h) hgt)
      · exact (ih acc).2

/-- C5: on a successfully extracted hand state, the recognizer scores every
lexicon entry; the returned confidence is always the best score found; the
returned label is the first entry (in lexicon iteration order, which settles
ties) attaining the strict maximum, exactly when that maximum reaches the
acceptance threshold 0.75; below the threshold the label is `None` while the
best score is still returned. -/
theorem predict_strict_max_threshold (hs : HandState) :
    (predictFromState hs).2 = maxConf hs ∧
    (∀ e ∈ LEXICON, calculate_match_score hs e.2 ≤ maxConf hs) ∧
    (CONFIDENCE_THRESHOLD ≤ maxConf hs →
      (predictFromState hs).1 =
        (LEXICON.find? (fun e => decide (calculate_match_score hs e.2 = maxConf hs))).map
          Prod.fst) ∧
    (maxConf hs < CONFIDENCE_THRESHOLD → (predictFromState hs).1 = none) := by
  have hsnd : (scanBest hs).2 = maxConf hs := by
    unfold scanBest maxConf
    simpa using bestFold_snd hs LEXICON (none, 0)
  have hth : ∀ e ∈ LEXICON, calculate_match_score hs e.2 ≤ maxConf hs := by
    intro e he
    unfold maxConf
    exact mem_le_maxFold hs LEXICON e he 0
  refine ⟨?_, hth, fun h => ?_, fun h => ?_⟩
  · simp only [predictFromState]
    split_ifs <;> simp [hsnd]
  · have hfst := (bestFold_fst hs LEXICON (none, 0)).1
    have hgt : (scanBest hs).2 > ((none, 0) : Option String × ℚ).2 := by
      rw [hsnd]
      exact lt_of_lt_of_le (by norm_num [CONFIDENCE_THRESHOLD]) h
    unfold scanBest at hsnd hgt
    have hres := hfst hgt
    rw [hsnd] at hres
    simp only [predictFromState]
    unfold scanBest
    rw [if_pos (by rw [hsnd]; exact h)]
    exact hres
  · simp only [predictFromState]
    rw [if_neg]
    rw [hsnd]
    exact not_le.mpr h

/-- Witness for C5: on the all-extended hand the best score is 1 and the
first maximal entry, `5`, is returned with confidence 1. -/
theorem predict_strict_max_threshold_witness :
    CONFIDENCE_THRESHOLD ≤ maxConf hsAllExt ∧
    predictFromState hsAllExt = (some "5", 1) := by
  have h := predict_strict_max_threshold hsAllExt
  have hm : maxConf hsAllExt = 1 := by with_unfolding_all decide
  have hth : CONFIDENCE_THRESHOLD ≤ maxConf hsAllExt := by
    rw [hm]
    norm_num [CONFIDENCE_THRESHOLD]
  refine ⟨hth, ?_⟩
  have h1 := h.1
  have h3 := h.2.2.1 hth
  rw [hm] at h3 h1
  have hfind : (LEXICON.find? (fun e =>
      decide (calculate_match_score hsAllExt e.2 = 1))).map Prod.fst = some "5" := by
    with_unfolding_all decide
  rw [hfind] at h3
  exact Prod.ext h3 h1

end ASL
